import Mathlib

/-!
Verification of the credit-gated job orchestration pipeline of the seo-pro
repository: quote issuance and claiming (`api/services/audits.py`), the credit
ledger RPCs it calls, task dispatch (`api/services/cloud_tasks.py`), the
orchestrator completion tracker (`orchestrator/scheduler.py`), configuration
validation (`api/config.py`), URL safety gating (`api/utils/url_validator.py`,
`api/scanner/site.py`) and the estimate route (`api/routes/audits.py`).

The Python source is shallowly embedded: every Supabase table is an
association list keyed by row id inside a `DB` record, stateful functions take
and return the `DB` (plus the in-process `_audit_state` of the orchestrator), and
raised exceptions become `Except` errors.  Statuses are kept as the literal
strings the source writes.  `DB.quote_status_writes` and `DB.dispatched` are
ghost logs: they record, respectively, every status transition written to the
`pending_audits` table and every payload handed to the task queue, so that
properties about transitions and fan-out can be stated; they influence no
control flow.
-/

deriving instance DecidableEq for Except

namespace SeoPro

/-- An exception raised by the service layer: either a FastAPI `HTTPException`
with a status code and detail, or any other Python exception rendered as its
message string. -/
inductive PyExc where
  | http (status_code : Nat) (detail : String)
  | other (msg : String)
deriving DecidableEq, Repr

/-- A row of the `pending_audits` table (a Quote).  `metadata_selected_urls`
and `metadata_original_page_count` are the two metadata keys the source reads
or writes. -/
structure QuoteRec where
  user_id : String
  url : String
  page_count : Nat
  credits_required : Nat
  status : String
  metadata_selected_urls : Option (List String)
  metadata_original_page_count : Option Nat
  expires_at : Nat
deriving DecidableEq, Repr

/-- A row of the `audits` table (a Job). -/
structure AuditRec where
  user_id : String
  url : String
  status : String
  page_count : Nat
  credits_used : Nat
  error_message : Option String
  completed_at : Option String
deriving DecidableEq, Repr

/-- A row of the `audit_tasks` table (a Task). -/
structure TaskRec where
  audit_id : String
  task_type : String
  worker_type : String
  status : String
  completed_at : Option String
  results_json : Option String
  error_message : Option String
deriving DecidableEq, Repr

/-- A ledger transaction row appended by the credit RPCs.  Negative `amount`
is a debit, positive a credit/refund. -/
structure Txn where
  user_id : String
  amount : Int
  reference_id : String
  reference_type : String
  description : String
deriving DecidableEq, Repr

/-- Ghost record of one payload handed to the Cloud Tasks queue by
`submit_sdk_task` (`api/services/cloud_tasks.py`): the body is
`{audit_id, url, analysis_type: "full"}` plus `page_urls` when truthy. -/
structure DispatchRec where
  audit_id : String
  url : String
  analysis_type : String
  page_urls : Option (List String)
deriving DecidableEq, Repr

/-- The durable store: the tables touched by the core, per-owner credit
balances backing the ledger RPCs, and the two ghost logs. -/
structure DB where
  quotes : List (String × QuoteRec)
  audits : List (String × AuditRec)
  audit_tasks : List (String × TaskRec)
  balances : List (String × Nat)
  txns : List Txn
  quote_status_writes : List (String × String × String)
  dispatched : List DispatchRec
deriving DecidableEq, Repr

/-- Look up a row by key in an association-list table. -/
def getRec {α : Type} (l : List (String × α)) (k : String) : Option α :=
  match l with
  | [] => none
  | (k', v) :: rest => if k' = k then some v else getRec rest k

/-- Insert or replace the row with key `k` (replacement keeps its position,
insertion appends, matching Python dict / upsert behaviour). -/
def setRec {α : Type} (l : List (String × α)) (k : String) (v : α) : List (String × α) :=
  match l with
  | [] => [(k, v)]
  | (k', v') :: rest => if k' = k then (k', v) :: rest else (k', v') :: setRec rest k v

/-- Apply `f` to the row with key `k` if present (an UPDATE affecting zero or
one rows). -/
def updRec {α : Type} (l : List (String × α)) (k : String) (f : α → α) : List (String × α) :=
  match l with
  | [] => []
  | (k', v') :: rest => if k' = k then (k', f v') :: rest else (k', v') :: updRec rest k f

/-- Remove the row with key `k` (Python `dict.pop(k, None)`). -/
def removeRec {α : Type} (l : List (String × α)) (k : String) : List (String × α) :=
  match l with
  | [] => []
  | (k', v) :: rest => if k' = k then rest else (k', v) :: removeRec rest k

/-- Current credit balance of an owner (0 when the owner has no row). -/
def DB.balance (db : DB) (owner : String) : Nat :=
  (getRec db.balances owner).getD 0

/-- Models `UPDATE pending_audits SET status = new WHERE id = quote_id` (no status
precondition).  Appends the transition to the ghost write log. -/
def setQuoteStatus (db : DB) (quote_id new_status : String) : DB :=
  match getRec db.quotes quote_id with
  | none => db
  | some q =>
    { db with
      quotes := setRec db.quotes quote_id { q with status := new_status },
      quote_status_writes := db.quote_status_writes ++ [(quote_id, q.status, new_status)] }

/-- The conditional claim update of `validate_and_claim_quote`:
`UPDATE pending_audits SET status = processing WHERE id = quote_id AND
status = pending`.  Returns whether a row was affected. -/
def claimQuoteIfPending (db : DB) (quote_id : String) : Bool × DB :=
  match getRec db.quotes quote_id with
  | none => (false, db)
  | some q =>
    if q.status = "pending" then (true, setQuoteStatus db quote_id "processing")
    else (false, db)

/-- Does `needle` occur at some position of `hay`? -/
def containsSubAux (needle : List Char) : List Char → Bool
  | [] => needle.isEmpty
  | c :: rest => needle.isPrefixOf (c :: rest) || containsSubAux needle rest

/-- Holds when `needle` occurs inside `hay` (Python `needle in hay` on strings). -/
def containsSub (hay needle : String) : Bool :=
  containsSubAux needle.toList hay.toList

/-- Python `s.startswith(p)`. -/
def strStartsWith (s p : String) : Bool :=
  p.toList.isPrefixOf s.toList

/-- Python truthiness of an optional list: truthy exactly when present and
non-empty. -/
def truthy (l : Option (List String)) : Bool :=
  match l with
  | some (_ :: _) => true
  | _ => false

/-- Python `a or b` on optional lists, using list truthiness. -/
def pyOrList (a b : Option (List String)) : Option (List String) :=
  if truthy a then a else b

namespace Audits

/-- Embeds `validate_and_claim_quote` (`api/services/audits.py`): look the quote up
(404 when absent), check ownership (403), lazily expire on access (write
`expired`, 400), then perform the conditional `pending` → `processing` update
(400 when zero rows were affected).  Returns the quote row as read before the
claim. -/
def validate_and_claim_quote (db : DB) (quote_id user_id : String) (now : Nat) :
    Except PyExc QuoteRec × DB :=
  match getRec db.quotes quote_id with
  | none => (.error (.http 404 "Quote not found"), db)
  | some quote =>
    if quote.user_id ≠ user_id then
      (.error (.http 403 "Not your quote"), db)
    else if quote.expires_at < now then
      (.error (.http 400 "Quote expired. Please request a new estimate."),
        setQuoteStatus db quote_id "expired")
    else
      match claimQuoteIfPending db quote_id with
      | (true, db') => (.ok quote, db')
      | (false, db') => (.error (.http 400 "Quote already used or expired"), db')

/-- Modelled from the spec: the stored procedure `deduct_credits` invoked via
`supabase.rpc` is not under `src/`; per the spec (section 4.1 and section 6)
it atomically decrements the balance iff balance is at least the amount,
appending exactly one transaction, and otherwise raises (the raised message
contains `Insufficient credits`, which is what the caller string-matches on).
`fault` injects a store-level failure, which leaves the store unchanged. -/
def rpc_deduct_credits (db : DB) (p_user_id : String) (p_amount : Nat)
    (p_reference_id p_reference_type p_description : String) (fault : Option String) :
    Except String Unit × DB :=
  match fault with
  | some msg => (.error msg, db)
  | none =>
    let b := db.balance p_user_id
    if p_amount ≤ b then
      (.ok (),
        { db with
          balances := setRec db.balances p_user_id (b - p_amount),
          txns := db.txns ++
            [{ user_id := p_user_id, amount := -(p_amount : Int),
               reference_id := p_reference_id, reference_type := p_reference_type,
               description := p_description }] })
    else
      (.error "Insufficient credits", db)

/-- Modelled from the spec: the stored procedure `refund_credits` invoked via
`supabase.rpc` is not under `src/`; per the spec (section 4.1) it atomically
increments the balance, appending exactly one transaction, and never fails
under normal operation.  `fault` injects a store-level failure, which leaves
the store unchanged. -/
def rpc_refund_credits (db : DB) (p_user_id : String) (p_amount : Nat)
    (p_reference_id p_reference_type p_description : String) (fault : Option String) :
    Except String Unit × DB :=
  match fault with
  | some msg => (.error msg, db)
  | none =>
    let b := db.balance p_user_id
    (.ok (),
      { db with
        balances := setRec db.balances p_user_id (b + p_amount),
        txns := db.txns ++
          [{ user_id := p_user_id, amount := (p_amount : Int),
             reference_id := p_reference_id, reference_type := p_reference_type,
             description := p_description }] })

/-- Embeds `deduct_credits_atomic` (`api/services/audits.py`): call the
`deduct_credits` RPC; any raised error whose text contains
`Insufficient credits` becomes an HTTP 402, any other error is re-raised. -/
def deduct_credits_atomic (db : DB) (user_id : String) (amount : Nat)
    (quote_id url : String) (page_count : Nat) (fault : Option String) :
    Except PyExc Unit × DB :=
  match rpc_deduct_credits db user_id amount quote_id "audit"
      ("Site audit: " ++ url ++ " (" ++ toString page_count ++ " pages)") fault with
  | (.ok _, db') => (.ok (), db')
  | (.error e, db') =>
    if containsSub e "Insufficient credits" then
      (.error (.http 402 ("Insufficient credits. Need " ++ toString amount ++
        ", please top up.")), db')
    else
      (.error (.other e), db')

/-- Embeds `refund_credits` (`api/services/audits.py`): call the `refund_credits`
RPC inside try/except and return `true` on success, `false` on any raised
error — it never raises. -/
def refund_credits (db : DB) (user_id : String) (amount : Nat)
    (reference_id reason : String) (fault : Option String) : Bool × DB :=
  match rpc_refund_credits db user_id amount reference_id "audit_refund" reason fault with
  | (.ok _, db') => (true, db')
  | (.error _, db') => (false, db')

/-- Embeds `create_audit_record` (`api/services/audits.py`): insert an `audits` row
with status `queued`.  The generated row id is passed in. -/
def create_audit_record (db : DB) (new_id user_id url : String)
    (page_count credits_used : Nat) : String × DB :=
  let row : AuditRec :=
    { user_id := user_id, url := url, status := "queued", page_count := page_count,
      credits_used := credits_used, error_message := none, completed_at := none }
  (new_id, { db with audits := setRec db.audits new_id row })

/-- Embeds `update_audit_status` (`api/services/audits.py`): update the status of the audit
row and, when given, its error message. -/
def update_audit_status (db : DB) (audit_id status : String)
    (error_message : Option String) : DB :=
  { db with audits := updRec db.audits audit_id (fun a =>
      { a with status := status,
               error_message := match error_message with
                 | some m => some m
                 | none => a.error_message }) }

/-- Embeds `create_pending_quote` (`api/services/audits.py`): insert a
`pending_audits` row with status `pending` and a 30-minute expiry. -/
def create_pending_quote (db : DB) (new_id user_id url : String)
    (page_count credits_required : Nat) (metadata_original_page_count : Option Nat)
    (now : Nat) : String × DB :=
  let row : QuoteRec :=
    { user_id := user_id, url := url, page_count := page_count,
      credits_required := credits_required, status := "pending",
      metadata_selected_urls := none,
      metadata_original_page_count := metadata_original_page_count,
      expires_at := now + 30 * 60 }
  (new_id, { db with quotes := setRec db.quotes new_id row })

end Audits

/-- The environment of one `Run` invocation: the settings and generated ids it
reads, and the outcomes of the external collaborators (the Cloud Tasks queue
and the ledger store), injected as parameters. -/
structure RunEnv where
  dev_mode : Bool
  sdk_worker_url : Option String
  debit_fault : Option String
  refund_fault : Option String
  dispatch_fault : Option String
  new_audit_id : String
  now : Nat
deriving DecidableEq, Repr

namespace CloudTasks

/-- Embeds `submit_audit_to_orchestrator` (`api/services/cloud_tasks.py`): raise
HTTP 503 when `SDK_WORKER_URL` is unset, otherwise `submit_sdk_task` builds a
payload of `{audit_id, url, analysis_type: "full"}` — plus `page_urls` when
truthy, and without `page_count`, which the function accepts but never uses —
and enqueues one Cloud Task; a queue failure propagates as an exception. -/
def submit_audit_to_orchestrator (db : DB) (env : RunEnv) (audit_id url : String)
    (page_count : Nat) (user_id : String) (page_urls : Option (List String)) :
    Except PyExc Unit × DB :=
  match env.sdk_worker_url with
  | none => (.error (.http 503 "SDK Worker not configured. Please contact support."), db)
  | some _ =>
    match env.dispatch_fault with
    | some msg => (.error (.other msg), db)
    | none =>
      let rec_ : DispatchRec :=
        { audit_id := audit_id, url := url, analysis_type := "full",
          page_urls := if truthy page_urls then page_urls else none }
      (.ok (), { db with dispatched := db.dispatched ++ [rec_] })

end CloudTasks

namespace Audits

/-- Embeds `_run_audit_dev_mode` (`api/services/audits.py`): look the quote up and
check ownership only (no claim, no expiry check, no debit), create the audit
with `credits_used = 0`, submit to the queue ignoring any failure, then write
quote status `completed` unconditionally. -/
def run_audit_dev_mode (db : DB) (env : RunEnv) (quote_id user_id : String)
    (selected_urls : Option (List String)) :
    Except PyExc (String × String) × DB :=
  match getRec db.quotes quote_id with
  | none => (.error (.http 404 "Quote not found"), db)
  | some quote =>
    if quote.user_id ≠ user_id then (.error (.http 403 "Not your quote"), db)
    else
      let page_urls := pyOrList selected_urls quote.metadata_selected_urls
      let page_count := if truthy page_urls then (page_urls.getD []).length else quote.page_count
      let (audit_id, db) := create_audit_record db env.new_audit_id user_id quote.url page_count 0
      let db :=
        match CloudTasks.submit_audit_to_orchestrator db env audit_id quote.url page_count
            user_id page_urls with
        | (_, db') => db'
      let db := setQuoteStatus db quote_id "completed"
      (.ok (audit_id, "processing"), db)

/-- Embeds `run_audit_with_quote` (`api/services/audits.py`): dev mode bypasses the
whole credit flow; otherwise claim the quote, debit (reverting the quote to
`pending` and re-raising on any debit failure), mark the quote `approved`,
compute `page_urls` / `page_count` from the selection of the caller or the quote
metadata (Python `or` truthiness), create the audit with
`credits_used = quote.credits_required`, and submit to the queue — on a
submission failure refund (result ignored), mark the audit `failed`, mark the
quote `failed` and raise HTTP 503.  Returns `(audit_id, "processing")`. -/
def run_audit_with_quote (db : DB) (env : RunEnv) (quote_id user_id : String)
    (selected_urls : Option (List String)) :
    Except PyExc (String × String) × DB :=
  if env.dev_mode then run_audit_dev_mode db env quote_id user_id selected_urls
  else
    match validate_and_claim_quote db quote_id user_id env.now with
    | (.error e, db) => (.error e, db)
    | (.ok quote, db) =>
      match deduct_credits_atomic db user_id quote.credits_required quote_id quote.url
          quote.page_count env.debit_fault with
      | (.error e, db) => (.error e, setQuoteStatus db quote_id "pending")
      | (.ok _, db) =>
        let db := setQuoteStatus db quote_id "approved"
        let page_urls := pyOrList selected_urls quote.metadata_selected_urls
        let page_count :=
          if truthy page_urls then (page_urls.getD []).length else quote.page_count
        let (audit_id, db) :=
          create_audit_record db env.new_audit_id user_id quote.url page_count
            quote.credits_required
        match CloudTasks.submit_audit_to_orchestrator db env audit_id quote.url page_count
            user_id page_urls with
        | (.ok _, db) => (.ok (audit_id, "processing"), db)
        | (.error e, db) =>
          let (_refund_ok, db) :=
            refund_credits db user_id quote.credits_required audit_id
              ("Task submission failed: " ++ (match e with
                | .http _ d => d
                | .other m => m)) env.refund_fault
          let db := update_audit_status db audit_id "failed"
            (some "Failed to submit analysis to worker queue. Credits refunded.")
          let db := setQuoteStatus db quote_id "failed"
          (.error (.http 503
            "Unable to queue analysis. Your credits have been refunded. Please try again."),
            db)

end Audits

namespace Scheduler

/-- A Python value held in the in-process `_audit_state`
dictionaries (`orchestrator/scheduler.py`): those dicts mix integers
(`total_tasks`, `completed_tasks`), strings (`user_id`, `url`, `created_at`)
and a nested `tasks` dict. -/
inductive PyVal where
  | int (n : Int)
  | str (s : String)
  | dict (entries : List (String × PyVal))
deriving Repr

/-- A Python dict with string keys. -/
abbrev PyDict := List (String × PyVal)

/-- The module-level `_audit_state` dict: audit id to state dict. -/
abbrev OrchState := List (String × PyDict)

/-- Embeds `get_audit_state`: `_audit_state.get(audit_id, dict())`. -/
def get_audit_state (ost : OrchState) (audit_id : String) : PyDict :=
  (getRec ost audit_id).getD []

/-- Embeds `set_audit_state`: `_audit_state[audit_id] = state`. -/
def set_audit_state (ost : OrchState) (audit_id : String) (state : PyDict) : OrchState :=
  setRec ost audit_id state

/-- Python attribute access `v.get(k)`: returns the dict entry (or `None`)
when `v` is a dict, and raises `AttributeError` on any other value. -/
def pyGetAttrGet (v : PyVal) (k : String) : Except String (Option PyVal) :=
  match v with
  | .dict es => .ok (getRec es k)
  | _ => .error "AttributeError: object has no attribute get"

/-- The generator `sum(1 for v in state.values() if v.get(\x22status\x22) == \x22completed\x22)`
in `update_audit_status` (`orchestrator/scheduler.py` line 120), evaluated
left to right over the TOP-LEVEL values of the state dict — not over
`state[\x22tasks\x22].values()` — so the first non-dict value (e.g. the integer
`total_tasks`) raises `AttributeError`. -/
def count_completed : List PyVal → Except String Nat
  | [] => .ok 0
  | v :: rest => do
    let s ← pyGetAttrGet v "status"
    let n ← count_completed rest
    pure ((match s with
      | some (.str t) => if t = "completed" then 1 else 0
      | _ => 0) + n)

/-- Embeds `update_audit_status` (`orchestrator/scheduler.py`): when the state is
non-empty, recount completed tasks over `state.values()`, read
`state.get(\x22total_tasks\x22, 0)`, and when `completed >= total > 0` mark the
audit row `completed` (with `completed_at`) and pop the state.  A raised
`AttributeError`/`TypeError` propagates to the caller. -/
def update_audit_status (db : DB) (ost : OrchState) (audit_id : String) :
    Except String Unit × DB × OrchState :=
  let state := get_audit_state ost audit_id
  if state.isEmpty then (.ok (), db, ost)
  else
    match count_completed (state.map (·.2)) with
    | .error e => (.error e, db, ost)
    | .ok completed_tasks =>
      match (getRec state "total_tasks").getD (.int 0) with
      | .int total_tasks =>
        if total_tasks ≤ (completed_tasks : Int) ∧ 0 < total_tasks then
          let db := { db with audits := updRec db.audits audit_id (fun a =>
            { a with status := "completed", completed_at := some "now()" }) }
          (.ok (), db, removeRec ost audit_id)
        else (.ok (), db, ost)
      | _ => (.error "TypeError: comparison of int and non-int", db, ost)

/-- Embeds `update_audit_state_on_task_completion` (`orchestrator/scheduler.py`):
create the state dict if missing, increment `total_tasks` on EVERY callback
(the source comment says it should have been set at task creation), refresh
`completed_tasks` and increment it for a terminal status, store the state,
then run `update_audit_status`.  Dict mutations persist even when a later
step raises, matching the Python in-place mutation of the shared dict. -/
def update_audit_state_on_task_completion (db : DB) (ost : OrchState)
    (audit_id _task_id status : String) : Except String Unit × DB × OrchState :=
  let st0 := get_audit_state ost audit_id
  let init : PyDict :=
    [("total_tasks", .int 0), ("completed_tasks", .int 0), ("tasks", .dict [])]
  let stOst : PyDict × OrchState :=
    if st0.isEmpty then (init, set_audit_state ost audit_id init) else (st0, ost)
  let st := stOst.1
  let ost := stOst.2
  match (match getRec st "total_tasks" with
    | none => Except.ok (setRec st "total_tasks" (.int 1))
    | some (.int n) => Except.ok (setRec st "total_tasks" (.int (n + 1)))
    | some _ => Except.error "TypeError: unsupported operand") with
  | .error e => (.error e, db, ost)
  | .ok st =>
    let st := setRec st "completed_tasks" ((getRec st "completed_tasks").getD (.int 0))
    match (if status = "completed" ∨ status = "failed" then
        match getRec st "completed_tasks" with
        | some (.int n) => Except.ok (setRec st "completed_tasks" (.int (n + 1)))
        | _ => Except.error "TypeError: unsupported operand"
      else Except.ok st) with
    | .error e => (.error e, db, set_audit_state ost audit_id st)
    | .ok st =>
      let ost := set_audit_state ost audit_id st
      update_audit_status db ost audit_id

/-- The body of a worker `POST /task-update` callback. -/
structure TaskStatusUpdate where
  task_id : String
  audit_id : String
  status : String
  results_json : Option String
  error_message : Option String
deriving DecidableEq, Repr

/-- Embeds `update_task_status`, the `/task-update` endpoint
(`orchestrator/scheduler.py`): 404 when the task row is unknown, 403 when it
belongs to another audit, otherwise update the task row (terminal statuses
also set `completed_at`) with no check that the task was already terminal,
then run `update_audit_state_on_task_completion`; an exception raised there
surfaces as a 500 from the endpoint while the row update and the state
mutations persist. -/
def update_task_status (db : DB) (ost : OrchState) (u : TaskStatusUpdate) :
    Except PyExc Unit × DB × OrchState :=
  match getRec db.audit_tasks u.task_id with
  | none => (.error (.http 404 "Task not found"), db, ost)
  | some task =>
    if task.audit_id ≠ u.audit_id then
      (.error (.http 403 "Task does not belong to this audit"), db, ost)
    else
      let task := { task with
        status := u.status,
        completed_at :=
          if u.status = "completed" ∨ u.status = "failed" then some "now()"
          else task.completed_at,
        results_json := match u.results_json with
          | some r => some r
          | none => task.results_json,
        error_message := match u.error_message with
          | some m => some m
          | none => task.error_message }
      let db := { db with audit_tasks := setRec db.audit_tasks u.task_id task }
      match update_audit_state_on_task_completion db ost u.audit_id u.task_id u.status with
      | (.ok _, db, ost) => (.ok (), db, ost)
      | (.error e, db, ost) => (.error (.other e), db, ost)

/-- The `_audit_state` entry that `submit_audit_job`
(`orchestrator/scheduler.py` lines 301-312) installs when a job is submitted:
`total_tasks` starts at 6. -/
def submit_init_state (user_id url created_at : String) : PyDict :=
  [("total_tasks", .int 6), ("completed_tasks", .int 0), ("tasks", .dict []),
   ("user_id", .str user_id), ("url", .str url), ("created_at", .str created_at)]

end Scheduler

namespace Config

/-- The `Settings` fields relevant to the credit flow (`api/config.py`). -/
structure Settings where
  ENVIRONMENT : String
  DEV_MODE : Bool
deriving DecidableEq, Repr

/-- Embeds `Settings.validate_environment` (`api/config.py`). -/
def validate_environment (v : String) : Except String String :=
  if v = "development" ∨ v = "production" ∨ v = "staging" then .ok v
  else .error "ENVIRONMENT must be development, production, or staging"

/-- Embeds `Settings.validate_dev_mode` (`api/config.py`): reject `DEV_MODE = true`
when the already-validated `ENVIRONMENT` is `production` or `staging`. -/
def validate_dev_mode (v : Bool) (environment : String) : Except String Bool :=
  if v ∧ (environment = "production" ∨ environment = "staging") then
    .error ("CRITICAL SECURITY: DEV_MODE cannot be enabled in production or staging. " ++
      "This would bypass all credit checks and payment processing.")
  else .ok v

/-- Constructing `Settings(ENVIRONMENT=environment, DEV_MODE=dev_mode)`:
pydantic runs the field validators in declaration order and construction
fails iff one of them raises. -/
def mkSettings (environment : String) (dev_mode : Bool) : Except String Settings := do
  let e ← validate_environment environment
  let d ← validate_dev_mode dev_mode e
  pure { ENVIRONMENT := e, DEV_MODE := d }

end Config

namespace UrlValidator

/-- The classification that `ipaddress.ip_address(hostname)` gives when
the hostname is an IP literal. -/
structure IpInfo where
  is_private : Bool
  is_loopback : Bool
  is_link_local : Bool
  is_reserved : Bool
  is_multicast : Bool
deriving DecidableEq, Repr

/-- The stdlib view of the target URL consumed by `validate_url_safe`
(`api/utils/url_validator.py`): the `urllib.parse.urlparse` fields it reads
plus the `ipaddress.ip_address(hostname)` result (`none` when that call
raises `ValueError`, i.e. the hostname is not an IP literal). -/
structure UrlParts where
  raw : String
  scheme : String
  hostname : Option String
  port : Option Nat
  ip_info : Option IpInfo
deriving DecidableEq, Repr

/-- Copies `BLOCKED_HOSTNAMES` (`api/utils/url_validator.py`). -/
def BLOCKED_HOSTNAMES : List String :=
  ["169.254.169.254", "metadata.google.internal", "metadata", "localhost",
   "127.0.0.1", "0.0.0.0", "[::1]", "[0:0:0:0:0:0:0:1]", "[::]"]

/-- Copies `PRIVATE_IP_PREFIXES` (`api/utils/url_validator.py`). -/
def PRIVATE_IP_PREFIXES : List String :=
  ["10.", "172.16.", "172.17.", "172.18.", "172.19.", "172.20.", "172.21.",
   "172.22.", "172.23.", "172.24.", "172.25.", "172.26.", "172.27.", "172.28.",
   "172.29.", "172.30.", "172.31.", "192.168.", "127.", "169.254."]

/-- Copies `IPV6_BLOCKED_PREFIXES` (`api/utils/url_validator.py`). -/
def IPV6_BLOCKED_PREFIXES : List String :=
  ["::1", "::", "fc", "fd", "fe80", "fe::", "ff"]

/-- Copies `ALLOWED_SCHEMES` (`api/utils/url_validator.py`). -/
def ALLOWED_SCHEMES : List String := ["http", "https"]

/-- Embeds `validate_url_safe` (`api/utils/url_validator.py`): the SSRF gate.
Checks, in source order: scheme, hostname presence, blocked hostnames, IP
classification (or private prefixes for non-IP hostnames), allowed ports,
and localhost variants.  Returns `(is_valid, error_message)`. -/
def validate_url_safe (u : UrlParts) : Bool × Option String :=
  if ¬ u.scheme ∈ ALLOWED_SCHEMES then
    (false, some "Invalid URL scheme. Only http and https are allowed.")
  else
    match u.hostname with
    | none => (false, some "Invalid URL: no hostname")
    | some h =>
      let hostname_lower := h.toLower
      if hostname_lower ∈ BLOCKED_HOSTNAMES then
        (false, some "Access to internal services is not allowed")
      else
        let ipCheck : Option (Bool × Option String) :=
          match u.ip_info with
          | some ip =>
            if ip.is_private ∨ ip.is_loopback ∨ ip.is_link_local ∨ ip.is_reserved then
              some (false, some "Access to private IP addresses is not allowed")
            else if ip.is_multicast then
              some (false, some "Access to multicast addresses is not allowed")
            else none
          | none =>
            if PRIVATE_IP_PREFIXES.any (fun p => strStartsWith hostname_lower p) then
              some (false, some "Access to private networks is not allowed")
            else if IPV6_BLOCKED_PREFIXES.any (fun p => strStartsWith hostname_lower p) then
              some (false, some "Access to private IPv6 addresses is not allowed")
            else none
        match ipCheck with
        | some r => r
        | none =>
          if ¬ (match u.port with | none => true | some p => p == 80 || p == 443 : Bool) = true then
            (false, some ("Port " ++ toString (u.port.getD 0) ++
              " is not allowed. Only ports 80 and 443 are allowed."))
          else if containsSub hostname_lower "localhost" ∨
              strStartsWith hostname_lower "127." then
            (false, some "Access to localhost is not allowed")
          else
            (true, none)

end UrlValidator

namespace Credits

/-- Embeds `calculate_site_audit_credits` (`api/services/credits.py`): 7 credits per
page. -/
def calculate_site_audit_credits (page_count : Nat) : Nat := page_count * 7

/-- Embeds `calculate_credits` (`api/services/credits.py`): legacy alias. -/
def calculate_credits (page_count : Nat) : Nat := calculate_site_audit_credits page_count

end Credits

namespace Scanner

/-- The dict returned by `SiteScanner.estimate_pages` (`api/scanner/site.py`). -/
structure EstimateResult where
  page_count : Nat
  confidence : ℚ
  source : String
  error : Option String
deriving DecidableEq, Repr

/-- The network-facing remainder of `SiteScanner.estimate_pages` — the
robots.txt / sitemap fetches and the homepage fallback, all `httpx` I/O —
abstracted as an oracle.  `estimate_pages` consults it only after the safety
gate accepts the URL. -/
structure NetOracle where
  scan : UrlValidator.UrlParts → EstimateResult

/-- Embeds `SiteScanner.estimate_pages` (`api/scanner/site.py` lines 58-96): when
`validate_url_safe` rejects the URL it does NOT raise — it returns the
default estimate `page_count 1, confidence 0.0, source \x22default\x22` with an
error message, performing no network request; otherwise the network-facing
estimation runs. -/
def estimate_pages (u : UrlValidator.UrlParts) (net : NetOracle) : EstimateResult :=
  match UrlValidator.validate_url_safe u with
  | (false, errMsg) =>
    { page_count := 1, confidence := 0, source := "default",
      error := some ("URL validation failed: " ++ errMsg.getD "") }
  | (true, _) => net.scan u

end Scanner

namespace Routes

/-- The response of `POST /api/v1/audit/estimate` (`api/routes/audits.py`). -/
structure AuditEstimateResponse where
  url : String
  estimated_pages : Nat
  credits_required : Nat
  cost_lkr : Nat
  cost_usd : Nat
  quote_id : String
  expires_at : Nat
deriving DecidableEq, Repr

/-- Embeds `estimate_audit_cost` (`api/routes/audits.py` lines 71-116): scan the
site (`estimate_pages`), cap the page count by `max_pages` when that is
truthy, price with `calculate_credits`, store a pending quote with a
30-minute expiry, and return the estimate.  No branch rejects the URL. -/
def estimate_audit_cost (db : DB) (user_id : String) (u : UrlValidator.UrlParts)
    (max_pages : Option Nat) (net : Scanner.NetOracle) (new_quote_id : String)
    (now : Nat) : AuditEstimateResponse × DB :=
  let page_info := Scanner.estimate_pages u net
  let page_count := page_info.page_count
  let page_count :=
    match max_pages with
    | some m => if m ≠ 0 ∧ m < page_count then m else page_count
    | none => page_count
  let credits := Credits.calculate_credits page_count
  let (quote_id, db) :=
    Audits.create_pending_quote db new_quote_id user_id u.raw page_count credits
      (some page_info.page_count) now
  ({ url := u.raw, estimated_pages := page_count, credits_required := credits,
     cost_lkr := credits * 350, cost_usd := credits, quote_id := quote_id,
     expires_at := now + 30 * 60 }, db)

end Routes

/-! ### Concurrency model for quote claiming

The concurrency model of the spec (section 5) is that true concurrency control
lives in the atomic conditional update of the store, so a set of concurrent
`ClaimQuote` calls is modelled as the calls executing atomically in an
arbitrary sequential order. -/

/-- Run `n` sequential `validate_and_claim_quote` calls for the same quote,
returning how many succeeded together with the final store. -/
def iterate_claims (db : DB) (quote_id user_id : String) (now : Nat) : Nat → Nat × DB
  | 0 => (0, db)
  | n + 1 =>
    let r := Audits.validate_and_claim_quote db quote_id user_id now
    let rest := iterate_claims r.2 quote_id user_id now n
    ((if (r.1).toOption.isSome then 1 else 0) + rest.1, rest.2)

/-! ### The quote state machine, as specified and as implemented -/

/-- The transition set claimed by the spec (section 4.2): a Quote status
write `(quote_id, old, new)` is legal iff it is `pending → processing`,
`processing → approved`, `pending → expired`, `processing → pending`, or
`pending`/`processing` → `failed`.  This definition follows the SPEC words,
for comparison with the embedded code. -/
def SpecQuoteTransition (w : String × String × String) : Prop :=
  (w.2.1 = "pending" ∧ w.2.2 = "processing") ∨
  (w.2.1 = "processing" ∧ w.2.2 = "approved") ∨
  (w.2.1 = "pending" ∧ w.2.2 = "expired") ∨
  (w.2.1 = "processing" ∧ w.2.2 = "pending") ∨
  (w.2.1 = "pending" ∧ w.2.2 = "failed") ∨
  (w.2.1 = "processing" ∧ w.2.2 = "failed")

instance (w : String × String × String) : Decidable (SpecQuoteTransition w) := by
  unfold SpecQuoteTransition; infer_instance

/-- The transition set the embedded code actually writes: the conditional
claim (`pending → processing`), lazy expiry from ANY status, the
post-debit-failure revert (`processing → pending`), approval
(`processing → approved`), dispatch-failure marking (`approved → failed`),
and the dev-mode completion write from ANY status. -/
def CodeQuoteTransition (w : String × String × String) : Prop :=
  w.2.2 = "expired" ∨
  (w.2.1 = "pending" ∧ w.2.2 = "processing") ∨
  (w.2.1 = "processing" ∧ w.2.2 = "pending") ∨
  (w.2.1 = "processing" ∧ w.2.2 = "approved") ∨
  (w.2.1 = "approved" ∧ w.2.2 = "failed") ∨
  w.2.2 = "completed"

instance (w : String × String × String) : Decidable (CodeQuoteTransition w) := by
  unfold CodeQuoteTransition; infer_instance

namespace Scheduler

/-- Extract the integer of a Python value, when it is one. -/
def intValue (v : Option PyVal) : Option Int :=
  match v with
  | some (.int n) => some n
  | _ => none

end Scheduler

/-! ### Concrete fixtures used by witnesses and counterexamples -/

/-- A claimable 5-page quote for owner `u1`, priced 35 credits. -/
def qPending : QuoteRec :=
  { user_id := "u1", url := "https://example.com", page_count := 5,
    credits_required := 35, status := "pending",
    metadata_selected_urls := none, metadata_original_page_count := none,
    expires_at := 1000 }

/-- A store holding `qPending` under id `q1`, owner balance 100. -/
def db0 : DB :=
  { quotes := [("q1", qPending)], audits := [], audit_tasks := [],
    balances := [("u1", 100)], txns := [], quote_status_writes := [], dispatched := [] }

/-- A run environment with all collaborators healthy. -/
def envOk : RunEnv :=
  { dev_mode := false, sdk_worker_url := some "https://sdk-worker", debit_fault := none,
    refund_fault := none, dispatch_fault := none, new_audit_id := "a1", now := 500 }

/-- Environment `envOk` with a totally failing task-queue submission. -/
def envFail : RunEnv := { envOk with dispatch_fault := some "queue down" }

/-- Environment `envFail` with the ledger refund RPC also failing. -/
def envFailRefundFail : RunEnv := { envFail with refund_fault := some "ledger down" }

/-- The two page URLs a caller selects in the `selected_units` scenario. -/
def selTwo : List String := ["https://example.com/a", "https://example.com/b"]

/-- The section-8 scenario quote: `credits_required = 7`. -/
def qSmall : QuoteRec := { qPending with credits_required := 7 }

/-- The section-8 scenario store: owner balance 2 against a 7-credit quote. -/
def db3 : DB :=
  { quotes := [("q1", qSmall)], audits := [], audit_tasks := [],
    balances := [("u1", 2)], txns := [], quote_status_writes := [], dispatched := [] }

/-- An already-claimed quote. -/
def qTaken : QuoteRec := { qPending with status := "processing" }

/-- A quote whose TTL elapsed long ago (still stored as `pending`). -/
def qExp : QuoteRec := { qPending with expires_at := 10 }

/-- Store for exercising every `ClaimQuote` outcome at `now = 500`. -/
def dbC5 : DB :=
  { quotes := [("q1", qPending), ("q2", qTaken), ("q3", qExp)], audits := [],
    audit_tasks := [], balances := [("u1", 100)], txns := [],
    quote_status_writes := [], dispatched := [] }

/-- An audit being processed, used for the completion-tracker scenarios. -/
def audit1 : AuditRec :=
  { user_id := "u1", url := "https://example.com", status := "processing",
    page_count := 5, credits_used := 35, error_message := none, completed_at := none }

/-- A dispatched task of `a1`. -/
def task1 : TaskRec :=
  { audit_id := "a1", task_type := "technical", worker_type := "http",
    status := "processing", completed_at := none, results_json := none,
    error_message := none }

/-- Store with audit `a1` and its six dispatched tasks. -/
def db1 : DB :=
  { quotes := [], audits := [("a1", audit1)],
    audit_tasks := [("t1", task1), ("t2", task1), ("t3", task1),
      ("t4", task1), ("t5", task1), ("t6", task1)],
    balances := [("u1", 65)], txns := [], quote_status_writes := [], dispatched := [] }

/-- State `_audit_state` as `submit_audit_job` initializes it for `a1`. -/
def ost1 : Scheduler.OrchState :=
  [("a1", Scheduler.submit_init_state "u1" "https://example.com" "2026-01-01T00:00:00")]

/-- A worker callback reporting task `tid` of `a1` as `failed`. -/
def cbFailed (tid : String) : Scheduler.TaskStatusUpdate :=
  { task_id := tid, audit_id := "a1", status := "failed",
    results_json := none, error_message := some "worker error" }

/-- Process one failed-task callback, keeping the resulting store and state. -/
def stepFailed (s : DB × Scheduler.OrchState) (tid : String) : DB × Scheduler.OrchState :=
  ((Scheduler.update_task_status s.1 s.2 (cbFailed tid)).2.1,
   (Scheduler.update_task_status s.1 s.2 (cbFailed tid)).2.2)

/-- The store and orchestrator state after ALL six tasks of `a1` reported
`failed`. -/
def final1 : DB × Scheduler.OrchState :=
  ["t1", "t2", "t3", "t4", "t5", "t6"].foldl stepFailed (db1, ost1)

/-- Task `t1` already in the terminal state `completed`. -/
def task1done : TaskRec := { task1 with status := "completed", completed_at := some "now()" }

/-- Store for the duplicate-callback scenario. -/
def db4 : DB := { db1 with audit_tasks := [("t1", task1done)] }

/-- Orchestrator state for `a1` mid-flight: 6 total, 3 terminal so far. -/
def ost4 : Scheduler.OrchState :=
  [("a1", [("total_tasks", .int 6), ("completed_tasks", .int 3), ("tasks", .dict []),
    ("user_id", .str "u1"), ("url", .str "https://example.com"),
    ("created_at", .str "2026-01-01T00:00:00")])]

/-- A replay of the callback that already completed `t1`. -/
def cbDone : Scheduler.TaskStatusUpdate :=
  { task_id := "t1", audit_id := "a1", status := "completed",
    results_json := none, error_message := none }

/-- The `urlparse` view of `ftp://example.com`: a scheme the safety gate
rejects. -/
def ftpUrl : UrlValidator.UrlParts :=
  { raw := "ftp://example.com", scheme := "ftp", hostname := some "example.com",
    port := none, ip_info := none }

/-- An arbitrary network oracle (its answers are never used for a rejected
URL). -/
def netZero : Scanner.NetOracle :=
  ⟨fun _ => { page_count := 0, confidence := 0, source := "none", error := none }⟩

/-- A second, different network oracle (for oracle-independence witnesses). -/
def netBig : Scanner.NetOracle :=
  ⟨fun _ => { page_count := 50, confidence := 1, source := "sitemap", error := none }⟩

/-- Store for the unsafe-URL estimate scenario: owner `u1` with 10 credits
and no quotes yet. -/
def db6 : DB :=
  { quotes := [], audits := [], audit_tasks := [], balances := [("u1", 10)],
    txns := [], quote_status_writes := [], dispatched := [] }

/-- The estimate flow applied to the rejected URL. -/
def est6 : Routes.AuditEstimateResponse × DB :=
  Routes.estimate_audit_cost db6 "u1" ftpUrl none netZero "q6" 100

/-- Environment for then running the quote produced by `est6`. -/
def env6 : RunEnv := { envOk with new_audit_id := "a6", now := 100 }

/-! ## Helper lemmas about the association-list store -/

theorem getRec_setRec_self {α : Type} (l : List (String × α)) (k : String) (v : α) :
    getRec (setRec l k v) k = some v := by
  induction l with
  | nil => simp [setRec, getRec]
  | cons p rest ih =>
    obtain ⟨k', v'⟩ := p
    by_cases h : k' = k <;> simp [setRec, getRec, h, ih]

theorem getRec_updRec_self {α : Type} (l : List (String × α)) (k : String) (f : α → α) :
    getRec (updRec l k f) k = (getRec l k).map f := by
  induction l with
  | nil => simp [updRec, getRec]
  | cons p rest ih =>
    obtain ⟨k', v'⟩ := p
    by_cases h : k' = k <;> simp [updRec, getRec, h, ih]

/-! ## Claims -/

/-- C3: for every Run call in which the claim succeeds but the credit debit
then fails — with InsufficientFunds or any other debit error — the Quote is
reverted from `processing` to `pending`, the debit error is surfaced to the
caller, and the balance of the owner (indeed the whole balance table and the
transaction log) is unchanged. -/
theorem c3_debit_failure_reverts_quote (db : DB) (env : RunEnv) (qid uid : String)
    (sel : Option (List String)) (q : QuoteRec)
    (hdev : env.dev_mode = false)
    (hq : getRec db.quotes qid = some q)
    (howner : q.user_id = uid)
    (hexp : ¬ q.expires_at < env.now)
    (hstat : q.status = "pending")
    (hfail : env.debit_fault = none → db.balance uid < q.credits_required) :
    (Audits.run_audit_with_quote db env qid uid sel).1 =
      .error (match env.debit_fault with
        | some msg =>
          if containsSub msg "Insufficient credits" then
            .http 402 ("Insufficient credits. Need " ++ toString q.credits_required ++
              ", please top up.")
          else .other msg
        | none =>
          .http 402 ("Insufficient credits. Need " ++ toString q.credits_required ++
            ", please top up.")) ∧
    (getRec (Audits.run_audit_with_quote db env qid uid sel).2.quotes qid).map
      QuoteRec.status = some "pending" ∧
    (Audits.run_audit_with_quote db env qid uid sel).2.balances = db.balances ∧
    (Audits.run_audit_with_quote db env qid uid sel).2.txns = db.txns := by
  cases hfault : env.debit_fault with
  | none =>
    have hlt := hfail hfault
    simp only [Audits.run_audit_with_quote, hdev, Bool.false_eq_true, if_false,
      Audits.validate_and_claim_quote, hq, howner, ne_eq, not_true_eq_false,
      if_false, hexp, claimQuoteIfPending, hstat, if_true,
      setQuoteStatus, Audits.deduct_credits_atomic, Audits.rpc_deduct_credits, hfault,
      DB.balance]
    have hcc : containsSub "Insufficient credits" "Insufficient credits" = true := by rfl
    rw [show (getRec db.balances uid).getD 0 = db.balance uid from rfl,
        if_neg (not_le.mpr hlt)]
    simp [hcc, getRec_setRec_self]
  | some msg =>
    simp only [Audits.run_audit_with_quote, hdev, Bool.false_eq_true, if_false,
      Audits.validate_and_claim_quote, hq, howner, ne_eq, not_true_eq_false,
      if_false, hexp, claimQuoteIfPending, hstat, if_true,
      setQuoteStatus, Audits.deduct_credits_atomic, Audits.rpc_deduct_credits, hfault]
    by_cases hc : containsSub msg "Insufficient credits" = true <;>
      simp [hc, getRec_setRec_self]

/-- Witness for C3 at the section-8 scenario: balance 2, `credits_required`
7, healthy store — Run fails with the 402 insufficiency error, the quote is
back to `pending`, balances and transactions are untouched. -/
theorem c3_debit_failure_reverts_quote_witness :
    (Audits.run_audit_with_quote db3 envOk "q1" "u1" none).1 =
      .error (.http 402 "Insufficient credits. Need 7, please top up.") ∧
    (getRec (Audits.run_audit_with_quote db3 envOk "q1" "u1" none).2.quotes "q1").map
      QuoteRec.status = some "pending" ∧
    (Audits.run_audit_with_quote db3 envOk "q1" "u1" none).2.balances = db3.balances ∧
    (Audits.run_audit_with_quote db3 envOk "q1" "u1" none).2.txns = db3.txns := by
  exact c3_debit_failure_reverts_quote db3 envOk "q1" "u1" none qSmall rfl rfl rfl
    (by decide) rfl (fun _ => by decide)

/-- C2 counterexample: in the dispatch-failure compensation run on `db0`,
exactly two transactions are recorded but they do NOT reference the same Job
id — the debit references the Quote id `q1` while the refund references the
Job id `a1`. -/
theorem c2_refund_reference_differs_counterexample :
    (Audits.run_audit_with_quote db0 envFail "q1" "u1" none).2.txns.map Txn.reference_id =
      ["q1", "a1"] ∧
    envFail.new_audit_id = "a1" ∧
    ¬ ∀ t ∈ (Audits.run_audit_with_quote db0 envFail "q1" "u1" none).2.txns,
      t.reference_id = "a1" := by decide

/-- C2 (amended): for every Run in which the debit succeeds and the dispatch
submission fails totally (and the ledger refund RPC behaves normally), the
balance of the owner is restored to its pre-Run value, exactly two transactions
are recorded — a debit referencing the QUOTE id and a refund credit
referencing the JOB id — the Job is marked `failed`, the Quote is marked
`failed`, and the caller receives the retryable HTTP 503 error. -/
theorem c2_dispatch_failure_compensates (db : DB) (env : RunEnv) (qid uid w msg : String)
    (sel : Option (List String)) (q : QuoteRec)
    (hdev : env.dev_mode = false)
    (hq : getRec db.quotes qid = some q)
    (howner : q.user_id = uid)
    (hexp : ¬ q.expires_at < env.now)
    (hstat : q.status = "pending")
    (hfault : env.debit_fault = none)
    (hbal : q.credits_required ≤ db.balance uid)
    (hsdk : env.sdk_worker_url = some w)
    (hdisp : env.dispatch_fault = some msg)
    (hrefund : env.refund_fault = none) :
    (Audits.run_audit_with_quote db env qid uid sel).1 =
      .error (.http 503
        "Unable to queue analysis. Your credits have been refunded. Please try again.") ∧
    (Audits.run_audit_with_quote db env qid uid sel).2.balance uid = db.balance uid ∧
    (Audits.run_audit_with_quote db env qid uid sel).2.txns = db.txns ++
      [{ user_id := uid, amount := -(q.credits_required : Int), reference_id := qid,
         reference_type := "audit",
         description := "Site audit: " ++ q.url ++ " (" ++ toString q.page_count ++ " pages)" },
       { user_id := uid, amount := (q.credits_required : Int),
         reference_id := env.new_audit_id, reference_type := "audit_refund",
         description := "Task submission failed: " ++ msg }] ∧
    (getRec (Audits.run_audit_with_quote db env qid uid sel).2.audits env.new_audit_id).map
      AuditRec.status = some "failed" ∧
    (getRec (Audits.run_audit_with_quote db env qid uid sel).2.quotes qid).map
      QuoteRec.status = some "failed" := by
  simp only [Audits.run_audit_with_quote, hdev, Bool.false_eq_true, if_false,
    Audits.validate_and_claim_quote, hq, howner, ne_eq, not_true_eq_false, if_false, hexp,
    claimQuoteIfPending, hstat, if_true, setQuoteStatus,
    Audits.deduct_credits_atomic, Audits.rpc_deduct_credits, hfault, DB.balance]
  rw [show (getRec db.balances uid).getD 0 = db.balance uid from rfl, if_pos hbal]
  simp only [getRec_setRec_self]
  simp only [Audits.create_audit_record, CloudTasks.submit_audit_to_orchestrator, hsdk, hdisp,
    Audits.refund_credits, Audits.rpc_refund_credits, hrefund, setQuoteStatus,
    Audits.update_audit_status, getRec_setRec_self, getRec_updRec_self, DB.balance,
    Option.getD_some, Option.map_some]
  refine ⟨trivial, ?_, by rw [List.append_assoc]; rfl, rfl, rfl⟩
  exact Nat.sub_add_cancel hbal

/-- Witness for C2 on `db0`/`envFail`: balance 100 is restored, the debit
references `q1` and the refund references `a1`, audit and quote end
`failed`, and the caller gets the 503. -/
theorem c2_dispatch_failure_compensates_witness :
    (Audits.run_audit_with_quote db0 envFail "q1" "u1" none).1 =
      .error (.http 503
        "Unable to queue analysis. Your credits have been refunded. Please try again.") ∧
    (Audits.run_audit_with_quote db0 envFail "q1" "u1" none).2.balance "u1" =
      db0.balance "u1" ∧
    (Audits.run_audit_with_quote db0 envFail "q1" "u1" none).2.txns = db0.txns ++
      [{ user_id := "u1", amount := -(35 : Int), reference_id := "q1",
         reference_type := "audit",
         description := "Site audit: https://example.com (5 pages)" },
       { user_id := "u1", amount := (35 : Int), reference_id := "a1",
         reference_type := "audit_refund",
         description := "Task submission failed: queue down" }] ∧
    (getRec (Audits.run_audit_with_quote db0 envFail "q1" "u1" none).2.audits "a1").map
      AuditRec.status = some "failed" ∧
    (getRec (Audits.run_audit_with_quote db0 envFail "q1" "u1" none).2.quotes "q1").map
      QuoteRec.status = some "failed" := by
  have h := c2_dispatch_failure_compensates db0 envFail "q1" "u1" "https://sdk-worker"
    "queue down" none qPending rfl rfl rfl (by decide) rfl rfl (by decide) rfl rfl rfl
  exact ⟨h.1, h.2.1, by rw [h.2.2.1]; rfl, h.2.2.2.1, h.2.2.2.2⟩

/-- C10: `refund_credits` returns a boolean and never raises — `false`
exactly when the underlying ledger call failed — and the dispatch-failure
compensation path of Run reaches the failed-Job marking, the failed-Quote
marking and the 503 error regardless of the refund outcome. -/
theorem c10_refund_never_raises_compensation_proceeds :
    (∀ (db : DB) (uid : String) (amount : Nat) (ref reason : String)
        (fault : Option String),
      (Audits.refund_credits db uid amount ref reason fault).1 = fault.isNone) ∧
    (∀ (db : DB) (env : RunEnv) (qid uid w msg : String) (sel : Option (List String))
        (q : QuoteRec),
      env.dev_mode = false →
      getRec db.quotes qid = some q → q.user_id = uid → ¬ q.expires_at < env.now →
      q.status = "pending" → env.debit_fault = none →
      q.credits_required ≤ db.balance uid → env.sdk_worker_url = some w →
      env.dispatch_fault = some msg →
      (Audits.run_audit_with_quote db env qid uid sel).1 =
        .error (.http 503
          "Unable to queue analysis. Your credits have been refunded. Please try again.") ∧
      (getRec (Audits.run_audit_with_quote db env qid uid sel).2.audits
        env.new_audit_id).map AuditRec.status = some "failed" ∧
      (getRec (Audits.run_audit_with_quote db env qid uid sel).2.quotes qid).map
        QuoteRec.status = some "failed") := by
  constructor
  · intro db uid amount ref reason fault
    cases fault <;> simp [Audits.refund_credits, Audits.rpc_refund_credits]
  · intro db env qid uid w msg sel q hdev hq howner hexp hstat hfault hbal hsdk hdisp
    cases hrefund : env.refund_fault with
    | none =>
      simp only [Audits.run_audit_with_quote, hdev, Bool.false_eq_true, if_false,
        Audits.validate_and_claim_quote, hq, howner, ne_eq, not_true_eq_false, if_false,
        hexp, claimQuoteIfPending, hstat, if_true, setQuoteStatus,
        Audits.deduct_credits_atomic, Audits.rpc_deduct_credits, hfault, DB.balance]
      rw [show (getRec db.balances uid).getD 0 = db.balance uid from rfl, if_pos hbal]
      simp only [getRec_setRec_self]
      simp [Audits.create_audit_record, CloudTasks.submit_audit_to_orchestrator, hsdk,
        hdisp, Audits.refund_credits, Audits.rpc_refund_credits, hrefund, setQuoteStatus,
        Audits.update_audit_status, getRec_setRec_self, getRec_updRec_self]
    | some rmsg =>
      simp only [Audits.run_audit_with_quote, hdev, Bool.false_eq_true, if_false,
        Audits.validate_and_claim_quote, hq, howner, ne_eq, not_true_eq_false, if_false,
        hexp, claimQuoteIfPending, hstat, if_true, setQuoteStatus,
        Audits.deduct_credits_atomic, Audits.rpc_deduct_credits, hfault, DB.balance]
      rw [show (getRec db.balances uid).getD 0 = db.balance uid from rfl, if_pos hbal]
      simp only [getRec_setRec_self]
      simp [Audits.create_audit_record, CloudTasks.submit_audit_to_orchestrator, hsdk,
        hdisp, Audits.refund_credits, Audits.rpc_refund_credits, hrefund, setQuoteStatus,
        Audits.update_audit_status, getRec_setRec_self, getRec_updRec_self]

/-- Witness for C10: with the refund RPC itself failing (`envFailRefundFail`)
the refund call reports `false` yet the run still marks the Job and Quote
`failed` and surfaces the 503. -/
theorem c10_refund_never_raises_compensation_proceeds_witness :
    (Audits.refund_credits db0 "u1" 35 "a1" "r" (some "ledger down")).1 = false ∧
    (Audits.run_audit_with_quote db0 envFailRefundFail "q1" "u1" none).1 =
      .error (.http 503
        "Unable to queue analysis. Your credits have been refunded. Please try again.") ∧
    (getRec (Audits.run_audit_with_quote db0 envFailRefundFail "q1" "u1" none).2.audits
      "a1").map AuditRec.status = some "failed" ∧
    (getRec (Audits.run_audit_with_quote db0 envFailRefundFail "q1" "u1" none).2.quotes
      "q1").map QuoteRec.status = some "failed" := by
  refine ⟨c10_refund_never_raises_compensation_proceeds.1 db0 "u1" 35 "a1" "r"
    (some "ledger down"), ?_⟩
  exact c10_refund_never_raises_compensation_proceeds.2 db0 envFailRefundFail "q1" "u1"
    "https://sdk-worker" "queue down" none qPending rfl rfl rfl (by decide) rfl rfl
    (by decide) rfl rfl

/-- C8 counterexample: running the 5-page, 35-credit quote `q1` with two
selected URLs debits 35 credits (the original quote price) even though the
pricing function applied to the selection length gives
`calculate_credits 2 = 14` — the charge is NOT computed from the length of
`selected_units`. -/
theorem c8_charge_not_from_selection_counterexample :
    (Audits.run_audit_with_quote db0 envOk "q1" "u1" (some selTwo)).2.txns.map
      Txn.amount = [-35] ∧
    (getRec (Audits.run_audit_with_quote db0 envOk "q1" "u1" (some selTwo)).2.audits
      "a1").map AuditRec.credits_used = some 35 ∧
    (getRec (Audits.run_audit_with_quote db0 envOk "q1" "u1" (some selTwo)).2.audits
      "a1").map AuditRec.page_count = some 2 ∧
    Credits.calculate_credits selTwo.length = 14 ∧
    ¬ (35 : Nat) = Credits.calculate_credits selTwo.length := by decide

/-- C8 (amended): when a Run call supplies a non-empty `selected_units`, the
Task fan-out uses it — the Job records `page_count = selected.length` and
the dispatched queue payload carries exactly the selected URLs — but the
credit amount charged stays the original `credits_required` of the quote; pricing
is not recomputed from the selection length. -/
theorem c8_fanout_uses_selection_charge_uses_quote (db : DB) (env : RunEnv)
    (qid uid w a : String) (as : List String) (q : QuoteRec)
    (hdev : env.dev_mode = false)
    (hq : getRec db.quotes qid = some q)
    (howner : q.user_id = uid)
    (hexp : ¬ q.expires_at < env.now)
    (hstat : q.status = "pending")
    (hfault : env.debit_fault = none)
    (hbal : q.credits_required ≤ db.balance uid)
    (hsdk : env.sdk_worker_url = some w)
    (hdisp : env.dispatch_fault = none) :
    (Audits.run_audit_with_quote db env qid uid (some (a :: as))).1 =
      .ok (env.new_audit_id, "processing") ∧
    getRec (Audits.run_audit_with_quote db env qid uid (some (a :: as))).2.audits
      env.new_audit_id =
      some { user_id := uid, url := q.url, status := "queued",
             page_count := (a :: as).length, credits_used := q.credits_required,
             error_message := none, completed_at := none } ∧
    (Audits.run_audit_with_quote db env qid uid (some (a :: as))).2.dispatched =
      db.dispatched ++ [{ audit_id := env.new_audit_id, url := q.url,
                          analysis_type := "full", page_urls := some (a :: as) }] ∧
    (Audits.run_audit_with_quote db env qid uid (some (a :: as))).2.txns = db.txns ++
      [{ user_id := uid, amount := -(q.credits_required : Int), reference_id := qid,
         reference_type := "audit",
         description := "Site audit: " ++ q.url ++ " (" ++ toString q.page_count ++ " pages)" }] ∧
    (Audits.run_audit_with_quote db env qid uid (some (a :: as))).2.balance uid =
      db.balance uid - q.credits_required := by
  simp only [Audits.run_audit_with_quote, hdev, Bool.false_eq_true, if_false,
    Audits.validate_and_claim_quote, hq, howner, ne_eq, not_true_eq_false, if_false, hexp,
    claimQuoteIfPending, hstat, if_true, setQuoteStatus,
    Audits.deduct_credits_atomic, Audits.rpc_deduct_credits, hfault, DB.balance]
  rw [show (getRec db.balances uid).getD 0 = db.balance uid from rfl, if_pos hbal]
  simp only [getRec_setRec_self]
  simp [pyOrList, truthy, Audits.create_audit_record,
    CloudTasks.submit_audit_to_orchestrator, hsdk, hdisp, getRec_setRec_self]

/-- Witness for C8 at `db0` with two selected URLs: fan-out 2 pages,
charge 35. -/
theorem c8_fanout_uses_selection_charge_uses_quote_witness :
    (Audits.run_audit_with_quote db0 envOk "q1" "u1" (some selTwo)).1 =
      .ok ("a1", "processing") ∧
    getRec (Audits.run_audit_with_quote db0 envOk "q1" "u1" (some selTwo)).2.audits "a1" =
      some { user_id := "u1", url := "https://example.com", status := "queued",
             page_count := 2, credits_used := 35,
             error_message := none, completed_at := none } ∧
    (Audits.run_audit_with_quote db0 envOk "q1" "u1" (some selTwo)).2.dispatched =
      db0.dispatched ++ [{ audit_id := "a1", url := "https://example.com",
                           analysis_type := "full", page_urls := some selTwo }] ∧
    (Audits.run_audit_with_quote db0 envOk "q1" "u1" (some selTwo)).2.txns = db0.txns ++
      [{ user_id := "u1", amount := -(35 : Int), reference_id := "q1",
         reference_type := "audit",
         description := "Site audit: https://example.com (5 pages)" }] ∧
    (Audits.run_audit_with_quote db0 envOk "q1" "u1" (some selTwo)).2.balance "u1" =
      db0.balance "u1" - 35 := by
  have h := c8_fanout_uses_selection_charge_uses_quote db0 envOk "q1" "u1"
    "https://sdk-worker" "https://example.com/a" ["https://example.com/b"] qPending
    rfl rfl rfl (by decide) rfl rfl (by decide) rfl rfl
  exact h

/-- A `ClaimQuote` call on a found, owned, unexpired quote whose stored
status is not `pending` affects zero rows and returns the AlreadyClaimed
error, leaving the store untouched. -/
theorem validate_claim_not_pending (db : DB) (qid uid : String) (now : Nat) (q : QuoteRec)
    (hq : getRec db.quotes qid = some q) (howner : q.user_id = uid)
    (hexp : ¬ q.expires_at < now) (hstat : q.status ≠ "pending") :
    Audits.validate_and_claim_quote db qid uid now =
      (.error (.http 400 "Quote already used or expired"), db) := by
  simp [Audits.validate_and_claim_quote, hq, howner, hexp, claimQuoteIfPending, hstat]

/-- Any number of further claims on a non-`pending` quote all fail. -/
theorem iterate_claims_stuck (qid uid : String) (now : Nat) :
    ∀ (n : Nat) (db : DB) (q : QuoteRec), getRec db.quotes qid = some q →
      q.user_id = uid → ¬ q.expires_at < now → q.status ≠ "pending" →
      (iterate_claims db qid uid now n).1 = 0 := by
  intro n
  induction n with
  | zero => intro db q _ _ _ _; rfl
  | succ n ih =>
    intro db q hq howner hexp hstat
    have hv := validate_claim_not_pending db qid uid now q hq howner hexp hstat
    simp [iterate_claims, hv, ih db q hq howner hexp hstat, Except.toOption]

/-- A `ClaimQuote` call on a found, owned, unexpired, `pending` quote
succeeds, moving the stored status to `processing`. -/
theorem validate_claim_pending (db : DB) (qid uid : String) (now : Nat) (q : QuoteRec)
    (hq : getRec db.quotes qid = some q) (howner : q.user_id = uid)
    (hexp : ¬ q.expires_at < now) (hstat : q.status = "pending") :
    Audits.validate_and_claim_quote db qid uid now =
      (.ok q, setQuoteStatus db qid "processing") ∧
    getRec (setQuoteStatus db qid "processing").quotes qid =
      some { q with status := "processing" } := by
  constructor
  · simp [Audits.validate_and_claim_quote, hq, howner, hexp, claimQuoteIfPending, hstat]
  · simp [setQuoteStatus, hq, getRec_setRec_self]

/-- C5: `ClaimQuote` returns NotFound on an unknown id, Forbidden on an
owner mismatch, Expired (writing `expired`) past the TTL, AlreadyClaimed
exactly when the conditional `pending` → `processing` update affects zero
rows, and succeeds otherwise; consequently, of any number of claims on the
same claimable quote (modelled as atomic calls in arbitrary sequential
order), exactly one succeeds. -/
theorem c5_claim_quote_cases_and_exclusivity :
    (∀ (db : DB) (qid uid : String) (now : Nat), getRec db.quotes qid = none →
      Audits.validate_and_claim_quote db qid uid now =
        (.error (.http 404 "Quote not found"), db)) ∧
    (∀ (db : DB) (qid uid : String) (now : Nat) (q : QuoteRec),
      getRec db.quotes qid = some q → q.user_id ≠ uid →
      Audits.validate_and_claim_quote db qid uid now =
        (.error (.http 403 "Not your quote"), db)) ∧
    (∀ (db : DB) (qid uid : String) (now : Nat) (q : QuoteRec),
      getRec db.quotes qid = some q → q.user_id = uid → q.expires_at < now →
      (Audits.validate_and_claim_quote db qid uid now).1 =
        .error (.http 400 "Quote expired. Please request a new estimate.") ∧
      (getRec (Audits.validate_and_claim_quote db qid uid now).2.quotes qid).map
        QuoteRec.status = some "expired") ∧
    (∀ (db : DB) (qid uid : String) (now : Nat) (q : QuoteRec),
      getRec db.quotes qid = some q → q.user_id = uid → ¬ q.expires_at < now →
      q.status ≠ "pending" →
      Audits.validate_and_claim_quote db qid uid now =
        (.error (.http 400 "Quote already used or expired"), db)) ∧
    (∀ (db : DB) (qid uid : String) (now : Nat) (q : QuoteRec),
      getRec db.quotes qid = some q → q.user_id = uid → ¬ q.expires_at < now →
      q.status = "pending" →
      (Audits.validate_and_claim_quote db qid uid now).1 = .ok q ∧
      (getRec (Audits.validate_and_claim_quote db qid uid now).2.quotes qid).map
        QuoteRec.status = some "processing") ∧
    (∀ (db : DB) (qid uid : String) (now : Nat) (q : QuoteRec) (n : Nat),
      getRec db.quotes qid = some q → q.user_id = uid → ¬ q.expires_at < now →
      q.status = "pending" →
      (iterate_claims db qid uid now (n + 1)).1 = 1) := by
  refine ⟨?_, ?_, ?_, ?_, ?_, ?_⟩
  · intro db qid uid now hq
    simp [Audits.validate_and_claim_quote, hq]
  · intro db qid uid now q hq howner
    simp [Audits.validate_and_claim_quote, hq, howner]
  · intro db qid uid now q hq howner hexp
    simp [Audits.validate_and_claim_quote, hq, howner, hexp, setQuoteStatus,
      getRec_setRec_self]
  · intro db qid uid now q hq howner hexp hstat
    exact validate_claim_not_pending db qid uid now q hq howner hexp hstat
  · intro db qid uid now q hq howner hexp hstat
    have hv := validate_claim_pending db qid uid now q hq howner hexp hstat
    rw [hv.1]
    exact ⟨rfl, by rw [hv.2]; rfl⟩
  · intro db qid uid now q n hq howner hexp hstat
    have hv := validate_claim_pending db qid uid now q hq howner hexp hstat
    have hstuck := iterate_claims_stuck qid uid now n
      (setQuoteStatus db qid "processing") { q with status := "processing" }
      hv.2 howner hexp (by simp)
    simp [iterate_claims, hv.1, hstuck, Except.toOption]

/-- Witness for C5 over `dbC5` at `now = 500`: all five outcomes occur, and
three sequential claims on the claimable `q1` yield exactly one success. -/
theorem c5_claim_quote_cases_and_exclusivity_witness :
    Audits.validate_and_claim_quote dbC5 "missing" "u1" 500 =
      (.error (.http 404 "Quote not found"), dbC5) ∧
    Audits.validate_and_claim_quote dbC5 "q1" "u2" 500 =
      (.error (.http 403 "Not your quote"), dbC5) ∧
    ((Audits.validate_and_claim_quote dbC5 "q3" "u1" 500).1 =
      .error (.http 400 "Quote expired. Please request a new estimate.") ∧
     (getRec (Audits.validate_and_claim_quote dbC5 "q3" "u1" 500).2.quotes "q3").map
       QuoteRec.status = some "expired") ∧
    Audits.validate_and_claim_quote dbC5 "q2" "u1" 500 =
      (.error (.http 400 "Quote already used or expired"), dbC5) ∧
    ((Audits.validate_and_claim_quote dbC5 "q1" "u1" 500).1 = .ok qPending ∧
     (getRec (Audits.validate_and_claim_quote dbC5 "q1" "u1" 500).2.quotes "q1").map
       QuoteRec.status = some "processing") ∧
    (iterate_claims dbC5 "q1" "u1" 500 3).1 = 1 := by
  refine ⟨c5_claim_quote_cases_and_exclusivity.1 dbC5 "missing" "u1" 500 rfl,
    c5_claim_quote_cases_and_exclusivity.2.1 dbC5 "q1" "u2" 500 qPending rfl (by decide),
    c5_claim_quote_cases_and_exclusivity.2.2.1 dbC5 "q3" "u1" 500 qExp rfl rfl (by decide),
    c5_claim_quote_cases_and_exclusivity.2.2.2.1 dbC5 "q2" "u1" 500 qTaken rfl rfl
      (by decide) (by decide),
    c5_claim_quote_cases_and_exclusivity.2.2.2.2.1 dbC5 "q1" "u1" 500 qPending rfl rfl
      (by decide) rfl,
    c5_claim_quote_cases_and_exclusivity.2.2.2.2.2 dbC5 "q1" "u1" 500 qPending 2 rfl rfl
      (by decide) rfl⟩

/-- C9 counterexample: `staging` is not the production environment, yet
constructing the settings with `DEV_MODE = true` under `staging` also fails
validation — the flag is not accepted in every non-production environment. -/
theorem c9_staging_also_rejected_counterexample :
    ¬ ("staging" = "production") ∧ (Config.mkSettings "staging" true).toOption = none := by
  decide

/-- C9 (amended): constructing the settings with `DEV_MODE = true` fails at
validation time when `ENVIRONMENT` is `production` OR `staging`, succeeds
under `development`, and with the flag off every valid environment
constructs fine — the flag is decided at configuration-validation time, not
silently at call time. -/
theorem c9_dev_mode_validation_amended :
    (Config.mkSettings "production" true).toOption = none ∧
    (Config.mkSettings "staging" true).toOption = none ∧
    Config.mkSettings "development" true =
      .ok { ENVIRONMENT := "development", DEV_MODE := true } ∧
    Config.mkSettings "development" false =
      .ok { ENVIRONMENT := "development", DEV_MODE := false } ∧
    Config.mkSettings "staging" false =
      .ok { ENVIRONMENT := "staging", DEV_MODE := false } ∧
    Config.mkSettings "production" false =
      .ok { ENVIRONMENT := "production", DEV_MODE := false } := by decide

/-- C1 at the failing input: with audit `a1` holding six tasks and the state
`submit_audit_job` initializes, every `failed` worker callback raises
`AttributeError` inside `update_audit_status` (the endpoint 500s), and after
ALL six tasks have reported `failed` the task rows are `failed` but the Job
is still `processing` — it is never marked `failed` — and no refund
transaction exists anywhere in the ledger. -/
theorem c1_all_failed_tasks_leave_job_processing_no_refund :
    (Scheduler.update_task_status db1 ost1 (cbFailed "t1")).1 =
      .error (.other "AttributeError: object has no attribute get") ∧
    ((getRec final1.1.audit_tasks "t1").map TaskRec.status = some "failed" ∧
     (getRec final1.1.audit_tasks "t6").map TaskRec.status = some "failed") ∧
    (getRec final1.1.audits "a1").map AuditRec.status = some "processing" ∧
    final1.1.txns = [] := by decide

/-- C4 at the failing input: task `t1` is already terminal (`completed`),
yet replaying the same callback increments both `total_tasks` (6 to 7) and
`completed_tasks` (3 to 4) in the completion-tracking state — the replay is
not a no-op — while indeed recording no ledger transaction. -/
theorem c4_duplicate_terminal_callback_counts_again :
    (getRec db4.audit_tasks "t1").map TaskRec.status = some "completed" ∧
    Scheduler.intValue (getRec (Scheduler.get_audit_state ost4 "a1") "total_tasks") =
      some 6 ∧
    Scheduler.intValue (getRec (Scheduler.get_audit_state ost4 "a1") "completed_tasks") =
      some 3 ∧
    Scheduler.intValue (getRec (Scheduler.get_audit_state
      (Scheduler.update_task_status db4 ost4 cbDone).2.2 "a1") "total_tasks") = some 7 ∧
    Scheduler.intValue (getRec (Scheduler.get_audit_state
      (Scheduler.update_task_status db4 ost4 cbDone).2.2 "a1") "completed_tasks") =
      some 4 ∧
    (Scheduler.update_task_status db4 ost4 cbDone).2.1.txns = db4.txns := by decide

/-- C6 counterexample: the safety gate rejects `ftp://example.com`, yet the
estimate flow does not refuse — it stores a claimable `pending` quote for 7
credits, and running that quote then charges the owner (balance 10 drops
to 3). -/
theorem c6_rejected_url_still_quoted_and_charged_counterexample :
    (UrlValidator.validate_url_safe ftpUrl).1 = false ∧
    (getRec est6.2.quotes "q6").map QuoteRec.status = some "pending" ∧
    (getRec est6.2.quotes "q6").map QuoteRec.credits_required = some 7 ∧
    (Audits.run_audit_with_quote est6.2 env6 "q6" "u1" none).1 = .ok ("a6", "processing") ∧
    (Audits.run_audit_with_quote est6.2 env6 "q6" "u1" none).2.balance "u1" = 3 ∧
    db6.balance "u1" = 10 := by decide

/-- C6 (amended): for every URL the safety gate rejects, `estimate_pages`
performs no network-facing step (its result is independent of the network
oracle) and returns the default one-page estimate carrying an error message
— but the core does not refuse: the estimate route still creates a
claimable `pending` Quote for that URL, priced at
`calculate_credits 1 = 7` credits. -/
theorem c6_rejected_url_default_estimate_still_quoted (u : UrlValidator.UrlParts)
    (err : Option String)
    (h : UrlValidator.validate_url_safe u = (false, err))
    (db : DB) (user_id : String) (max_pages : Option Nat)
    (net net' : Scanner.NetOracle) (qid : String) (now : Nat) :
    Scanner.estimate_pages u net = Scanner.estimate_pages u net' ∧
    Scanner.estimate_pages u net =
      { page_count := 1, confidence := 0, source := "default",
        error := some ("URL validation failed: " ++ err.getD "") } ∧
    (Routes.estimate_audit_cost db user_id u max_pages net qid now).1.credits_required =
      7 ∧
    getRec (Routes.estimate_audit_cost db user_id u max_pages net qid now).2.quotes qid =
      some { user_id := user_id, url := u.raw, page_count := 1, credits_required := 7,
             status := "pending", metadata_selected_urls := none,
             metadata_original_page_count := some 1, expires_at := now + 30 * 60 } := by
  have he : ∀ m : Scanner.NetOracle, Scanner.estimate_pages u m =
      { page_count := 1, confidence := 0, source := "default",
        error := some ("URL validation failed: " ++ err.getD "") } := by
    intro m
    simp [Scanner.estimate_pages, h]
  refine ⟨by rw [he, he], he net, ?_, ?_⟩ <;>
  · simp only [Routes.estimate_audit_cost, he net, Audits.create_pending_quote,
      Credits.calculate_credits, Credits.calculate_site_audit_credits]
    cases max_pages with
    | none => simp [getRec_setRec_self]
    | some m => simp [Nat.lt_one_iff, getRec_setRec_self]

/-- Witness for C6 at `ftp://example.com` against two different network
oracles. -/
theorem c6_rejected_url_default_estimate_still_quoted_witness :
    Scanner.estimate_pages ftpUrl netZero = Scanner.estimate_pages ftpUrl netBig ∧
    Scanner.estimate_pages ftpUrl netZero =
      { page_count := 1, confidence := 0, source := "default",
        error := some ("URL validation failed: " ++
          "Invalid URL scheme. Only http and https are allowed.") } ∧
    (Routes.estimate_audit_cost db6 "u1" ftpUrl none netZero "q6" 100).1.credits_required =
      7 ∧
    getRec (Routes.estimate_audit_cost db6 "u1" ftpUrl none netZero "q6" 100).2.quotes
      "q6" =
      some { user_id := "u1", url := "ftp://example.com", page_count := 1,
             credits_required := 7, status := "pending",
             metadata_selected_urls := none,
             metadata_original_page_count := some 1, expires_at := 100 + 30 * 60 } := by
  exact c6_rejected_url_default_estimate_still_quoted ftpUrl
    (some "Invalid URL scheme. Only http and https are allowed.") rfl db6 "u1" none
    netZero netBig "q6" 100


/-- The debit step touches balances and transactions only: quotes are
unchanged. -/
theorem deduct_quotes_eq (db : DB) (uid : String) (amount : Nat) (qid url : String)
    (pc : Nat) (fault : Option String) :
    (Audits.deduct_credits_atomic db uid amount qid url pc fault).2.quotes = db.quotes := by
  cases fault with
  | some m =>
    by_cases hc : containsSub m "Insufficient credits" = true <;>
      simp [Audits.deduct_credits_atomic, Audits.rpc_deduct_credits, hc]
  | none =>
    by_cases h : amount ≤ db.balance uid
    · simp [Audits.deduct_credits_atomic, Audits.rpc_deduct_credits, h]
    · have hcc : containsSub "Insufficient credits" "Insufficient credits" = true := by rfl
      simp [Audits.deduct_credits_atomic, Audits.rpc_deduct_credits, h, hcc]

/-- The debit step writes no quote status transition. -/
theorem deduct_writes_eq (db : DB) (uid : String) (amount : Nat) (qid url : String)
    (pc : Nat) (fault : Option String) :
    (Audits.deduct_credits_atomic db uid amount qid url pc fault).2.quote_status_writes =
      db.quote_status_writes := by
  cases fault with
  | some m =>
    by_cases hc : containsSub m "Insufficient credits" = true <;>
      simp [Audits.deduct_credits_atomic, Audits.rpc_deduct_credits, hc]
  | none =>
    by_cases h : amount ≤ db.balance uid
    · simp [Audits.deduct_credits_atomic, Audits.rpc_deduct_credits, h]
    · have hcc : containsSub "Insufficient credits" "Insufficient credits" = true := by rfl
      simp [Audits.deduct_credits_atomic, Audits.rpc_deduct_credits, h, hcc]

/-- The refund step touches balances and transactions only: quotes are
unchanged. -/
theorem refund_quotes_eq (db : DB) (uid : String) (amount : Nat) (ref reason : String)
    (fault : Option String) :
    (Audits.refund_credits db uid amount ref reason fault).2.quotes = db.quotes := by
  cases fault <;> simp [Audits.refund_credits, Audits.rpc_refund_credits]

/-- The refund step writes no quote status transition. -/
theorem refund_writes_eq (db : DB) (uid : String) (amount : Nat) (ref reason : String)
    (fault : Option String) :
    (Audits.refund_credits db uid amount ref reason fault).2.quote_status_writes =
      db.quote_status_writes := by
  cases fault <;> simp [Audits.refund_credits, Audits.rpc_refund_credits]

/-- Queue submission touches the dispatch log only: quotes are unchanged. -/
theorem submit_quotes_eq (db : DB) (env : RunEnv) (aid url : String) (pc : Nat)
    (uid : String) (pu : Option (List String)) :
    (CloudTasks.submit_audit_to_orchestrator db env aid url pc uid pu).2.quotes =
      db.quotes := by
  cases hsdk : env.sdk_worker_url with
  | none => simp [CloudTasks.submit_audit_to_orchestrator, hsdk]
  | some w =>
    cases hdf : env.dispatch_fault <;>
      simp [CloudTasks.submit_audit_to_orchestrator, hsdk, hdf]

/-- Queue submission writes no quote status transition. -/
theorem submit_writes_eq (db : DB) (env : RunEnv) (aid url : String) (pc : Nat)
    (uid : String) (pu : Option (List String)) :
    (CloudTasks.submit_audit_to_orchestrator db env aid url pc uid
      pu).2.quote_status_writes = db.quote_status_writes := by
  cases hsdk : env.sdk_worker_url with
  | none => simp [CloudTasks.submit_audit_to_orchestrator, hsdk]
  | some w =>
    cases hdf : env.dispatch_fault <;>
      simp [CloudTasks.submit_audit_to_orchestrator, hsdk, hdf]


/-- C7 (amended): every Quote status transition any Run invocation writes —
normal or dev mode, over an arbitrary initial store — lies in the set the
code implements: the conditional claim `pending` to `processing`, lazy
expiry to `expired` from any status, the post-debit-failure revert
`processing` to `pending`, `processing` to `approved`, dispatch-failure
marking `approved` to `failed`, and the dev-mode write to `completed` from
any status.  (No `InvalidQuoteState` error exists anywhere in the code.) -/
theorem c7_quote_status_writes_in_code_set (db : DB) (env : RunEnv) (qid uid : String)
    (sel : Option (List String)) :
    ∀ x ∈ (Audits.run_audit_with_quote db env qid uid sel).2.quote_status_writes,
      x ∈ db.quote_status_writes ∨ CodeQuoteTransition x := by
  intro x hx
  by_cases hdev : env.dev_mode = true
  · -- dev-mode path
    unfold Audits.run_audit_with_quote at hx
    rw [if_pos hdev] at hx
    unfold Audits.run_audit_dev_mode at hx
    cases hq : getRec db.quotes qid with
    | none => rw [hq] at hx; exact Or.inl hx
    | some q =>
      rw [hq] at hx
      by_cases howner : q.user_id ≠ uid
      · simp only [if_pos howner] at hx
        exact Or.inl hx
      · simp only [if_neg howner] at hx
        simp only [setQuoteStatus, submit_quotes_eq, submit_writes_eq,
          Audits.create_audit_record, hq, List.mem_append] at hx
        rcases hx with hx | hx
        · exact Or.inl hx
        · right
          simp only [List.mem_singleton] at hx
          subst hx
          right; right; right; right; right
          rfl
  · -- normal mode
    replace hdev : env.dev_mode = false := by
      cases h : env.dev_mode
      · rfl
      · exact absurd h hdev
    unfold Audits.run_audit_with_quote at hx
    rw [hdev] at hx
    simp only [Bool.false_eq_true, if_false] at hx
    cases hq : getRec db.quotes qid with
    | none =>
      simp only [Audits.validate_and_claim_quote, hq] at hx
      exact Or.inl hx
    | some q =>
      by_cases howner : q.user_id ≠ uid
      · simp only [Audits.validate_and_claim_quote, hq, if_pos howner] at hx
        exact Or.inl hx
      · by_cases hexp : q.expires_at < env.now
        · simp only [Audits.validate_and_claim_quote, hq, if_neg howner, if_pos hexp,
            setQuoteStatus] at hx
          simp only [List.mem_append] at hx
          rcases hx with hx | hx
          · exact Or.inl hx
          · right
            simp only [List.mem_singleton] at hx
            subst hx
            left
            rfl
        · by_cases hstat : q.status = "pending"
          · -- claim succeeds
            have howner' : q.user_id = uid := by
              by_contra hne
              exact howner hne
            have hv := validate_claim_pending db qid uid env.now q hq howner' hexp hstat
            simp only [hv.1] at hx
            -- now the deduct step
            rcases hd : Audits.deduct_credits_atomic (setQuoteStatus db qid "processing")
              uid q.credits_required qid q.url q.page_count env.debit_fault with ⟨r₂, db₂⟩
            have hq₂ : getRec db₂.quotes qid = some { q with status := "processing" } := by
              have h1 := deduct_quotes_eq (setQuoteStatus db qid "processing") uid
                q.credits_required qid q.url q.page_count env.debit_fault
              rw [hd] at h1
              rw [h1]
              exact hv.2
            have hw₂ : db₂.quote_status_writes =
                (setQuoteStatus db qid "processing").quote_status_writes := by
              have h1 := deduct_writes_eq (setQuoteStatus db qid "processing") uid
                q.credits_required qid q.url q.page_count env.debit_fault
              rw [hd] at h1
              exact h1
            have hwp : (setQuoteStatus db qid "processing").quote_status_writes =
                db.quote_status_writes ++ [(qid, "pending", "processing")] := by
              simp [setQuoteStatus, hq, hstat]
            cases r₂ with
            | error e =>
              simp only [hd] at hx
              simp only [setQuoteStatus, hq₂] at hx
              rw [hw₂, hwp] at hx
              simp only [List.mem_append] at hx
              rcases hx with (hx | hx) | hx
              · exact Or.inl hx
              · right
                simp only [List.mem_singleton] at hx
                subst hx
                right; left
                exact ⟨rfl, rfl⟩
              · right
                simp only [List.mem_singleton] at hx
                subst hx
                right; right; left
                exact ⟨rfl, rfl⟩
            | ok u =>
              simp only [hd] at hx
              set pu := pyOrList sel q.metadata_selected_urls with hpu
              set pc := (if truthy pu = true then (pu.getD []).length else q.page_count)
                with hpc
              rcases hc : Audits.create_audit_record (setQuoteStatus db₂ qid "approved")
                env.new_audit_id uid q.url pc q.credits_required with ⟨aid, db₃⟩
              simp only [hc] at hx
              have hq₃ : getRec db₃.quotes qid = some { q with status := "approved" } := by
                have h1 : (Audits.create_audit_record (setQuoteStatus db₂ qid "approved")
                    env.new_audit_id uid q.url pc q.credits_required).2.quotes =
                    (setQuoteStatus db₂ qid "approved").quotes := rfl
                rw [hc] at h1
                rw [h1]
                simp [setQuoteStatus, hq₂, getRec_setRec_self]
              have hw₃ : db₃.quote_status_writes =
                  db.quote_status_writes ++ [(qid, "pending", "processing")] ++
                    [(qid, "processing", "approved")] := by
                have h1 : (Audits.create_audit_record (setQuoteStatus db₂ qid "approved")
                    env.new_audit_id uid q.url pc
                    q.credits_required).2.quote_status_writes =
                    (setQuoteStatus db₂ qid "approved").quote_status_writes := rfl
                rw [hc] at h1
                rw [h1]
                simp only [setQuoteStatus, hq₂]
                rw [hw₂, hwp]
              rcases hs : CloudTasks.submit_audit_to_orchestrator db₃ env aid q.url pc
                uid pu with ⟨r₄, db₄⟩
              simp only [hs] at hx
              have hq₄ : db₄.quotes = db₃.quotes := by
                have h1 := submit_quotes_eq db₃ env aid q.url pc uid pu
                rw [hs] at h1
                exact h1
              have hw₄ : db₄.quote_status_writes = db₃.quote_status_writes := by
                have h1 := submit_writes_eq db₃ env aid q.url pc uid pu
                rw [hs] at h1
                exact h1
              cases r₄ with
              | ok u4 =>
                rw [hw₄, hw₃] at hx
                simp only [List.mem_append] at hx
                rcases hx with (hx | hx) | hx
                · exact Or.inl hx
                · right
                  simp only [List.mem_singleton] at hx
                  subst hx
                  right; left
                  exact ⟨rfl, rfl⟩
                · right
                  simp only [List.mem_singleton] at hx
                  subst hx
                  right; right; right; left
                  exact ⟨rfl, rfl⟩
              | error e4 =>
                simp only [setQuoteStatus, Audits.update_audit_status,
                  refund_quotes_eq, refund_writes_eq, hq₄, hq₃] at hx
                rw [hw₄, hw₃] at hx
                simp only [List.mem_append] at hx
                rcases hx with ((hx | hx) | hx) | hx
                · exact Or.inl hx
                · right
                  simp only [List.mem_singleton] at hx
                  subst hx
                  right; left
                  exact ⟨rfl, rfl⟩
                · right
                  simp only [List.mem_singleton] at hx
                  subst hx
                  right; right; right; left
                  exact ⟨rfl, rfl⟩
                · right
                  simp only [List.mem_singleton] at hx
                  subst hx
                  right; right; right; right; left
                  exact ⟨rfl, rfl⟩
          · -- conditional update affects zero rows
            have howner' : q.user_id = uid := by
              by_contra hne
              exact howner hne
            have hv := validate_claim_not_pending db qid uid env.now q hq howner' hexp hstat
            simp only [hv] at hx
            exact Or.inl hx

/-- C7 counterexample: the dispatch-failure run writes the transition
`approved` to `failed` on quote `q1`, which is outside the section 4.2
transition set the claim states (the claim allows `failed` only from
`pending` or `processing`). -/
theorem c7_approved_to_failed_write_counterexample :
    ("q1", "approved", "failed") ∈
      (Audits.run_audit_with_quote db0 envFail "q1" "u1" none).2.quote_status_writes ∧
    ¬ SpecQuoteTransition ("q1", "approved", "failed") := by decide

/-- Witness for C7: the `approved` to `failed` write of the dispatch-failure
run on `db0` is covered by the implemented transition set. -/
theorem c7_quote_status_writes_in_code_set_witness :
    ("q1", "approved", "failed") ∈ db0.quote_status_writes ∨
      CodeQuoteTransition ("q1", "approved", "failed") := by
  exact c7_quote_status_writes_in_code_set db0 envFail "q1" "u1" none
    ("q1", "approved", "failed") (by decide)

end SeoPro
